import Mathlib

/-!
Verification of the `process_data` pipeline in `src/main.py`.

The program is a single-pass batch pipeline over a pandas DataFrame:
load (or synthesize) a table with columns `id, category, value1, value2`,
add the derived columns `value1_plus_10` and `value2_div_value1`, filter
to rows with `value1 > 20`, add `value1_type`, and return the result.

Embedding choices:
* A table is a list of typed rows (`InputRow` for the four input columns,
  `DerivedRow` after the two numeric derivations, `ProcessedRow` after the
  post-filter labelling), mirroring the schema the code works with.
* `value2` and the derived quotient are modelled as `Rat`; the epsilon
  guard `1e-6` is the rational `1 / 1000000`.
* The filesystem seen by `process_data` is a map `String → Option FileData`
  where `FileData` distinguishes the three read outcomes of `pd.read_csv`:
  content that parses to zero rows/columns (raises `EmptyDataError`), any
  other read/parse failure (`unreadable`), and a successfully parsed table.
* `np.random.randint(10, 50, size=5)` and `np.random.rand(5) * 100` are
  modelled by passing the drawn values as parameters to
  `create_sample_dataframe`.
-/

namespace Spec2Proof

/-- A row of the input table: columns `id, category, value1, value2`
(src/main.py schema, also generated by `create_sample_dataframe`). -/
structure InputRow where
  id : Int
  category : String
  value1 : Int
  value2 : Rat
deriving DecidableEq, Repr

/-- A row after the two numeric derivations of `process_data`
(lines 110 and 113 of src/main.py). -/
structure DerivedRow where
  id : Int
  category : String
  value1 : Int
  value2 : Rat
  value1_plus_10 : Int
  value2_div_value1 : Rat
deriving DecidableEq, Repr

/-- A row of the returned table, after the post-filter labelling
(line 119 of src/main.py). -/
structure ProcessedRow where
  id : Int
  category : String
  value1 : Int
  value2 : Rat
  value1_plus_10 : Int
  value2_div_value1 : Rat
  value1_type : String
deriving DecidableEq, Repr

/-- The epsilon guard `1e-6` of line 113. -/
def epsilon : Rat := 1 / 1000000

/-- Lines 110 and 113: `df["value1_plus_10"] = df["value1"] + 10` and
`df["value2_div_value1"] = df["value2"] / (df["value1"] + 1e-6)`,
elementwise on one row. -/
def addDerivedColumns (r : InputRow) : DerivedRow :=
  { id := r.id
    category := r.category
    value1 := r.value1
    value2 := r.value2
    value1_plus_10 := r.value1 + 10
    value2_div_value1 := r.value2 / ((r.value1 : Rat) + epsilon) }

/-- Line 119: `df_filtered["value1_type"] = np.where(df_filtered["value1"] > 35,
"High", "Medium")`, elementwise on one row. -/
def addValue1Type (r : DerivedRow) : ProcessedRow :=
  { id := r.id
    category := r.category
    value1 := r.value1
    value2 := r.value2
    value1_plus_10 := r.value1_plus_10
    value2_div_value1 := r.value2_div_value1
    value1_type := if 35 < r.value1 then "High" else "Medium" }

/-- Lines 108-125 of src/main.py: the transformation part of `process_data`:
derive the two numeric columns on every row, filter to `value1 > 20`
(line 116), then add `value1_type` on the filtered rows. -/
def transform_rows (rows : List InputRow) : List ProcessedRow :=
  (((rows.map addDerivedColumns).filter
      (fun r => decide (20 < r.value1))).map addValue1Type)

/-- The three outcomes of reading the file at an existing path:
`pd.read_csv` raises `EmptyDataError` on content with zero rows/columns,
raises some other exception on any other read/parse failure (malformed
content, permission error, ...), or returns a parsed table. -/
inductive FileData where
  | emptyContent : FileData
  | unreadable : FileData
  | table : List InputRow → FileData
deriving DecidableEq

/-- The filesystem as `process_data` sees it: what (if anything) is at
each path. -/
def FS : Type := String → Option FileData

/-- Project root; the concrete directory string is irrelevant to the claims. -/
def PROJECT_ROOT : String := "."

/-- `DEFAULT_INPUT_CSV_PATH = os.path.join(PROJECT_ROOT, "data", "sample_input.csv")`. -/
def DEFAULT_INPUT_CSV_PATH : String := PROJECT_ROOT ++ "/data/sample_input.csv"

/-- Line 83: `effective_input_path = input_csv_path if input_csv_path else
DEFAULT_INPUT_CSV_PATH`. Python truthiness: `None` and the empty string
both fall back to the default. -/
def effective_input_path (input_csv_path : Option String) : String :=
  match input_csv_path with
  | none => DEFAULT_INPUT_CSV_PATH
  | some p => if p = "" then DEFAULT_INPUT_CSV_PATH else p

/-- `df.to_csv(path)`: write a table at a path. -/
def writeFile (fs : FS) (path : String) (d : FileData) : FS :=
  fun p => if p = path then some d else fs p

/-- The five categories of `create_sample_dataframe`
(line 65: `["A", "B", "A", "C", "B"]`). -/
def sampleCategories : List String := ["A", "B", "A", "C", "B"]

/-- Lines 60-71: `create_sample_dataframe`. `value1` and `value2` are the
values drawn by `np.random.randint(10, 50, size=5)` and
`np.random.rand(5) * 100`, passed as parameters; `id` is `range(1, 6)`. -/
def create_sample_dataframe (value1 : List Int) (value2 : List Rat) :
    List InputRow :=
  (List.range 5).map (fun (i : Nat) =>
    { id := (i : Int) + 1
      category := sampleCategories.getD i ""
      value1 := value1.getD i 0
      value2 := value2.getD i 0 })

/-- Lines 75-125: `process_data`. Given the filesystem, the optional input
path argument, and the values the generator would draw, return the
resulting table together with the filesystem after the call.
* If the effective path holds empty content, `pd.read_csv` raises
  `EmptyDataError`: return an empty table, nothing written (lines 94-96).
* Any other read failure at an existing path: return an empty table,
  nothing written (lines 97-103).
* A parsed table is transformed (lines 108-125).
* If the path does not exist, the sample is generated, written to
  `DEFAULT_INPUT_CSV_PATH`, and transformed (lines 89-93). -/
def process_data (fs : FS) (input_csv_path : Option String)
    (sample : List InputRow) : List ProcessedRow × FS :=
  let eff := effective_input_path input_csv_path
  match fs eff with
  | some FileData.emptyContent => ([], fs)
  | some FileData.unreadable => ([], fs)
  | some (FileData.table rows) => (transform_rows rows, fs)
  | none =>
      (transform_rows sample,
        writeFile fs DEFAULT_INPUT_CSV_PATH (FileData.table sample))

/-- The four input columns in pandas order, as parsed from the CSV header
or constructed by the generator. -/
def inputColumns : List String := ["id", "category", "value1", "value2"]

/-- Pandas column assignment `df[c] = ...`: appends a new column at the
end, overwrites an existing one in place. -/
def addColumn (cols : List String) (c : String) : List String :=
  if c ∈ cols then cols else cols ++ [c]

/-- The effect of `process_data`'s three column assignments on the column
list: add `value1_plus_10`, add `value2_div_value1` (filtering with
`.copy()` keeps the columns), add `value1_type`. -/
def process_data_columns (cols : List String) : List String :=
  addColumn (addColumn (addColumn cols "value1_plus_10")
    "value2_div_value1") "value1_type"

/-- The four input columns of a processed row. -/
def projectInput (r : ProcessedRow) : InputRow :=
  { id := r.id, category := r.category, value1 := r.value1, value2 := r.value2 }

/-- A sequence is a cyclic pattern from A, B, C when it reads the cycle
A, B, C, A, B, C, ... from some starting offset. This is the spec's
description of the generator's `category` column; it is compared against
the list the code actually uses. -/
def cyclicPatternABC (s : List String) : Prop :=
  ∃ k : Fin 3, s = (List.range s.length).map
    (fun i => (["A", "B", "C"] : List String).getD ((i + k) % 3) "")

instance (s : List String) : Decidable (cyclicPatternABC s) := by
  unfold cyclicPatternABC; infer_instance

/-! ### Helper lemmas about the transformation -/

/-- Projecting the processed rows back to their input columns gives exactly
the input rows passing the `value1 > 20` filter, in order. -/
theorem transform_rows_proj (rows : List InputRow) :
    List.map projectInput (transform_rows rows)
      = rows.filter (fun s => decide (20 < s.value1)) := by
  induction rows with
  | nil => rfl
  | cons a l ih =>
    by_cases h : 20 < a.value1 <;>
      simp [transform_rows, List.filter, addDerivedColumns, h] at * <;>
      simpa [transform_rows, addValue1Type, addDerivedColumns, projectInput, h] using ih

/-- The number of processed rows is the number of input rows with
`value1 > 20`. -/
theorem transform_rows_length (rows : List InputRow) :
    (transform_rows rows).length
      = rows.countP (fun s => decide (20 < s.value1)) := by
  have h := congrArg List.length (transform_rows_proj rows)
  simpa [← List.countP_eq_length_filter] using h

/-- If some input row passes the filter, the processed table is nonempty. -/
theorem transform_rows_ne_nil {rows : List InputRow} {s : InputRow}
    (hs : s ∈ rows) (hv : 20 < s.value1) : transform_rows rows ≠ [] := by
  have hpos : 0 < rows.countP (fun s => decide (20 < s.value1)) :=
    List.countP_pos_iff.mpr ⟨s, hs, by simpa using hv⟩
  have hlen := transform_rows_length rows
  intro hnil
  rw [hnil] at hlen
  simp at hlen
  omega

/-- Every processed row comes from an input row with `value1 > 20` by the
two derivation steps. -/
theorem mem_transform_rows {rows : List InputRow} {r : ProcessedRow}
    (h : r ∈ transform_rows rows) :
    ∃ s ∈ rows, 20 < s.value1 ∧ r = addValue1Type (addDerivedColumns s) := by
  simp only [transform_rows, List.mem_map, List.mem_filter] at h
  obtain ⟨d, ⟨⟨s, hs, rfl⟩, hp⟩, rfl⟩ := h
  exact ⟨s, hs, by simpa [addDerivedColumns] using hp, rfl⟩

/-- The epsilon-guarded denominator is never zero when `value1` is an
integer (the input schema's type for `value1`). -/
theorem denom_ne_zero (c : Int) : ((c : Rat) + epsilon) ≠ 0 := by
  intro h
  have h2 : (c : Rat) = -(1 / 1000000) := by
    unfold epsilon at h; linarith
  have h3 : ((1000000 : Int) * c : Rat) = -1 := by
    push_cast [h2]; ring
  have h4 : (1000000 : Int) * c = -1 := by exact_mod_cast h3
  omega

/-- Every drawn `value1` appears in some generated sample row. -/
theorem sample_mem_value1 (v1 : List Int) (v2 : List Rat)
    (h1 : v1.length = 5) {x : Int} (hx : x ∈ v1) :
    ∃ r ∈ create_sample_dataframe v1 v2, r.value1 = x := by
  obtain ⟨i, hi, rfl⟩ := List.mem_iff_getElem.mp hx
  refine ⟨_, List.mem_map.mpr ⟨i, List.mem_range.mpr (by omega), rfl⟩, ?_⟩
  simp [List.getD_eq_getElem, hi]

/-! ### Claim theorems -/

/-- C1: for every row of the table returned by `process_data`, the derived
column `value1_plus_10` equals that row's `value1` plus 10. -/
theorem value1_plus_10_correct (rows : List InputRow) (r : ProcessedRow)
    (h : r ∈ transform_rows rows) : r.value1_plus_10 = r.value1 + 10 := by
  obtain ⟨s, hs, hv, rfl⟩ := mem_transform_rows h
  simp [addValue1Type, addDerivedColumns]

theorem value1_plus_10_correct_witness :
    (addValue1Type (addDerivedColumns ⟨1, "A", 25, 10⟩)).value1_plus_10
      = (addValue1Type (addDerivedColumns ⟨1, "A", 25, 10⟩)).value1 + 10 :=
  value1_plus_10_correct [⟨1, "A", 25, 10⟩] _ (List.mem_singleton.mpr rfl)

/-- C2: for every row of the table returned by `process_data`,
`value1_type` equals "High" iff that row's `value1` is strictly greater
than 35, and equals "Medium" otherwise. -/
theorem value1_type_correct (rows : List InputRow) (r : ProcessedRow)
    (h : r ∈ transform_rows rows) :
    (r.value1_type = "High" ↔ 35 < r.value1)
      ∧ (¬ 35 < r.value1 → r.value1_type = "Medium") := by
  obtain ⟨s, hs, hv, rfl⟩ := mem_transform_rows h
  by_cases h35 : 35 < s.value1 <;>
    simp [addValue1Type, addDerivedColumns, h35]

theorem value1_type_correct_witness :
    ((addValue1Type (addDerivedColumns ⟨4, "C", 45, 40⟩)).value1_type = "High"
        ↔ 35 < (addValue1Type (addDerivedColumns ⟨4, "C", 45, 40⟩)).value1)
      ∧ (¬ 35 < (addValue1Type (addDerivedColumns ⟨4, "C", 45, 40⟩)).value1 →
          (addValue1Type (addDerivedColumns ⟨4, "C", 45, 40⟩)).value1_type = "Medium") :=
  value1_type_correct [⟨4, "C", 45, 40⟩] _ (List.mem_singleton.mpr rfl)

/-- C3: the returned table contains exactly the input rows whose `value1`
is strictly greater than 20 (projected back to the input columns, in
order); its row count equals the count of such rows and is at most the
input row count. -/
theorem filter_exact_rows (rows : List InputRow) :
    List.map projectInput (transform_rows rows)
        = rows.filter (fun s => decide (20 < s.value1))
      ∧ (transform_rows rows).length
          = rows.countP (fun s => decide (20 < s.value1))
      ∧ (transform_rows rows).length ≤ rows.length := by
  refine ⟨transform_rows_proj rows, transform_rows_length rows, ?_⟩
  calc (transform_rows rows).length
      = (List.map projectInput (transform_rows rows)).length := by simp
    _ = (rows.filter (fun s => decide (20 < s.value1))).length := by
        rw [transform_rows_proj]
    _ ≤ rows.length := List.length_filter_le _ _

/-- C4: on every row reached by the transformation step, the derived
column `value2_div_value1` equals `value2 / (value1 + 1e-6)` and the
denominator is nonzero (so the division never divides by zero), including
when `value1 = 0`. -/
theorem value2_div_value1_correct (rows : List InputRow) (r : DerivedRow)
    (h : r ∈ rows.map addDerivedColumns) :
    r.value2_div_value1 = r.value2 / ((r.value1 : Rat) + epsilon)
      ∧ ((r.value1 : Rat) + epsilon) ≠ 0 := by
  obtain ⟨s, hs, rfl⟩ := List.mem_map.mp h
  exact ⟨by simp [addDerivedColumns], denom_ne_zero s.value1⟩

theorem value2_div_value1_correct_witness :
    (addDerivedColumns ⟨1, "A", 0, 50⟩).value2_div_value1
        = (addDerivedColumns ⟨1, "A", 0, 50⟩).value2
            / (((addDerivedColumns ⟨1, "A", 0, 50⟩).value1 : Rat) + epsilon)
      ∧ (((addDerivedColumns ⟨1, "A", 0, 50⟩).value1 : Rat) + epsilon) ≠ 0 :=
  value2_div_value1_correct [⟨1, "A", 0, 50⟩] _ (List.mem_map.mpr ⟨_, List.mem_singleton.mpr rfl, rfl⟩)

/-- C5, counterexample: the generator's `category` column is the fixed
list ["A", "B", "A", "C", "B"] (line 65 of src/main.py), which is not a
cyclic pattern over A, B, C from any starting offset — at index 2 a
cyclic reading starting at "A" would give "C", the code gives "A". The
draws shown are legal outputs of `randint(10, 50)` and `rand() * 100`. -/
theorem sample_categories_not_cyclic :
    (∀ x ∈ ([10, 10, 10, 10, 10] : List Int), 10 ≤ x ∧ x < 50)
      ∧ ¬ cyclicPatternABC
          ((create_sample_dataframe [10, 10, 10, 10, 10] [0, 0, 0, 0, 0]).map
            (fun r => r.category)) := by
  decide

/-- C5, amended: `create_sample_dataframe` returns exactly 5 rows with
`id` the sequence 1..5, `category` the fixed list
["A", "B", "A", "C", "B"] (each drawn from the set A, B, C, but not a
cyclic pattern), `value1` the drawn random integers in [10, 50), and
`value2` the drawn random floats in [0, 100). -/
theorem create_sample_dataframe_spec (v1 : List Int) (v2 : List Rat)
    (h1 : v1.length = 5) (h2 : v2.length = 5)
    (hr1 : ∀ x ∈ v1, 10 ≤ x ∧ x < 50)
    (hr2 : ∀ x ∈ v2, 0 ≤ x ∧ x < 100) :
    (create_sample_dataframe v1 v2).length = 5
      ∧ (create_sample_dataframe v1 v2).map (fun r => r.id) = [1, 2, 3, 4, 5]
      ∧ (create_sample_dataframe v1 v2).map (fun r => r.category)
          = ["A", "B", "A", "C", "B"]
      ∧ (∀ r ∈ create_sample_dataframe v1 v2,
          r.category ∈ (["A", "B", "C"] : List String))
      ∧ (∀ r ∈ create_sample_dataframe v1 v2, 10 ≤ r.value1 ∧ r.value1 < 50)
      ∧ (∀ r ∈ create_sample_dataframe v1 v2, 0 ≤ r.value2 ∧ r.value2 < 100) := by
  refine ⟨by simp [create_sample_dataframe], ?_, ?_, ?_, ?_, ?_⟩
  · simp [create_sample_dataframe, List.range_succ]
  · simp [create_sample_dataframe, List.range_succ, sampleCategories]
  · intro r hr
    simp only [create_sample_dataframe, List.mem_map, List.mem_range] at hr
    obtain ⟨i, hi, rfl⟩ := hr
    interval_cases i <;> simp [sampleCategories]
  · intro r hr
    simp only [create_sample_dataframe, List.mem_map, List.mem_range] at hr
    obtain ⟨i, hi, rfl⟩ := hr
    have hlt : i < v1.length := by omega
    have heq : v1.getD i 0 = v1[i] := by simp [List.getD_eq_getElem, hlt]
    exact heq ▸ hr1 _ (List.getElem_mem hlt)
  · intro r hr
    simp only [create_sample_dataframe, List.mem_map, List.mem_range] at hr
    obtain ⟨i, hi, rfl⟩ := hr
    have hlt : i < v2.length := by omega
    have heq : v2.getD i 0 = v2[i] := by simp [List.getD_eq_getElem, hlt]
    exact heq ▸ hr2 _ (List.getElem_mem hlt)

theorem create_sample_dataframe_spec_witness :
    ([10, 25, 30, 40, 49] : List Int).length = 5
      ∧ (∀ x ∈ ([10, 25, 30, 40, 49] : List Int), 10 ≤ x ∧ x < 50)
      ∧ (∀ x ∈ ([0, 50, 99, 1, 2] : List Rat), 0 ≤ x ∧ x < 100)
      ∧ ((create_sample_dataframe [10, 25, 30, 40, 49] [0, 50, 99, 1, 2]).length = 5
          ∧ (create_sample_dataframe [10, 25, 30, 40, 49] [0, 50, 99, 1, 2]).map
              (fun r => r.id) = [1, 2, 3, 4, 5]
          ∧ (create_sample_dataframe [10, 25, 30, 40, 49] [0, 50, 99, 1, 2]).map
              (fun r => r.category) = ["A", "B", "A", "C", "B"]
          ∧ (∀ r ∈ create_sample_dataframe [10, 25, 30, 40, 49] [0, 50, 99, 1, 2],
              r.category ∈ (["A", "B", "C"] : List String))
          ∧ (∀ r ∈ create_sample_dataframe [10, 25, 30, 40, 49] [0, 50, 99, 1, 2],
              10 ≤ r.value1 ∧ r.value1 < 50)
          ∧ (∀ r ∈ create_sample_dataframe [10, 25, 30, 40, 49] [0, 50, 99, 1, 2],
              0 ≤ r.value2 ∧ r.value2 < 100)) :=
  ⟨by decide, by decide, by decide,
    create_sample_dataframe_spec [10, 25, 30, 40, 49] [0, 50, 99, 1, 2]
      (by decide) (by decide) (by decide) (by decide)⟩

/-- C6: when the effective path holds content that parses to zero
rows/columns (a zero-byte file raises `EmptyDataError` in `pd.read_csv`),
`process_data` returns an empty table immediately, with the filesystem
untouched (no further processing, no persistence) and — the function
being total on this branch — no exception reaching the caller. -/
theorem empty_input_returns_empty (fs : FS) (p : Option String)
    (sample : List InputRow)
    (h : fs (effective_input_path p) = some FileData.emptyContent) :
    process_data fs p sample = ([], fs) := by
  simp [process_data, h]

theorem empty_input_returns_empty_witness :
    process_data
        (fun q => if q = "empty.csv" then some FileData.emptyContent else none)
        (some "empty.csv") []
      = ([], (fun q => if q = "empty.csv" then some FileData.emptyContent else none)) :=
  empty_input_returns_empty _ _ _ (by decide)

/-- C7, counterexample: with the legal draw `value1 = [10,10,10,10,10]`
(every value in [10, 50)), a call on a missing path returns the empty
table — no generated row passes the `value1 > 20` filter — so the result
is not always non-empty as the claim states. -/
theorem missing_input_nonempty_refuted :
    (∀ x ∈ ([10, 10, 10, 10, 10] : List Int), 10 ≤ x ∧ x < 50)
      ∧ (process_data (fun _ => none) (some "absent.csv")
          (create_sample_dataframe [10, 10, 10, 10, 10] [0, 0, 0, 0, 0])).1
          = [] := by
  decide

/-- C7, amended: when no file exists at the effective path, `process_data`
generates the 5-row sample, persists it to `DEFAULT_INPUT_CSV_PATH`, and
returns the sample transformed (filtered plus `value1_type` and
`value1_plus_10` annotations); the result is non-empty provided at least
one drawn `value1` exceeds 20 (the unseeded draw does not guarantee
this). -/
theorem missing_input_generates_and_persists (fs : FS) (p : Option String)
    (v1 : List Int) (v2 : List Rat)
    (hmiss : fs (effective_input_path p) = none)
    (h1 : v1.length = 5)
    (hpos : ∃ x ∈ v1, 20 < x) :
    (create_sample_dataframe v1 v2).length = 5
      ∧ (process_data fs p (create_sample_dataframe v1 v2)).2
          DEFAULT_INPUT_CSV_PATH
          = some (FileData.table (create_sample_dataframe v1 v2))
      ∧ (process_data fs p (create_sample_dataframe v1 v2)).1
          = transform_rows (create_sample_dataframe v1 v2)
      ∧ (process_data fs p (create_sample_dataframe v1 v2)).1 ≠ []
      ∧ (∀ r ∈ (process_data fs p (create_sample_dataframe v1 v2)).1,
          r.value1_plus_10 = r.value1 + 10
            ∧ r.value1_type = (if 35 < r.value1 then "High" else "Medium")) := by
  have hout : process_data fs p (create_sample_dataframe v1 v2)
      = (transform_rows (create_sample_dataframe v1 v2),
          writeFile fs DEFAULT_INPUT_CSV_PATH
            (FileData.table (create_sample_dataframe v1 v2))) := by
    simp [process_data, hmiss]
  obtain ⟨x, hxmem, hx20⟩ := hpos
  obtain ⟨s, hsmem, hsval⟩ := sample_mem_value1 v1 v2 h1 hxmem
  refine ⟨by simp [create_sample_dataframe], ?_, ?_, ?_, ?_⟩
  · rw [hout]; simp [writeFile]
  · rw [hout]
  · rw [hout]
    exact transform_rows_ne_nil hsmem (by omega)
  · intro r hr
    rw [hout] at hr
    obtain ⟨t, htmem, htv, rfl⟩ := mem_transform_rows hr
    constructor
    · simp [addValue1Type, addDerivedColumns]
    · by_cases h35 : 35 < t.value1 <;>
        simp [addValue1Type, addDerivedColumns, h35]

theorem missing_input_generates_and_persists_witness :
    ((fun _ => (none : Option FileData)) (effective_input_path (some "absent.csv")) = none)
      ∧ ([10, 25, 30, 40, 45] : List Int).length = 5
      ∧ (∃ x ∈ ([10, 25, 30, 40, 45] : List Int), 20 < x)
      ∧ ((create_sample_dataframe [10, 25, 30, 40, 45] [0, 0, 0, 0, 0]).length = 5
          ∧ (process_data (fun _ => none) (some "absent.csv")
              (create_sample_dataframe [10, 25, 30, 40, 45] [0, 0, 0, 0, 0])).2
              DEFAULT_INPUT_CSV_PATH
              = some (FileData.table
                  (create_sample_dataframe [10, 25, 30, 40, 45] [0, 0, 0, 0, 0]))
          ∧ (process_data (fun _ => none) (some "absent.csv")
              (create_sample_dataframe [10, 25, 30, 40, 45] [0, 0, 0, 0, 0])).1
              = transform_rows
                  (create_sample_dataframe [10, 25, 30, 40, 45] [0, 0, 0, 0, 0])
          ∧ (process_data (fun _ => none) (some "absent.csv")
              (create_sample_dataframe [10, 25, 30, 40, 45] [0, 0, 0, 0, 0])).1 ≠ []
          ∧ (∀ r ∈ (process_data (fun _ => none) (some "absent.csv")
              (create_sample_dataframe [10, 25, 30, 40, 45] [0, 0, 0, 0, 0])).1,
              r.value1_plus_10 = r.value1 + 10
                ∧ r.value1_type = (if 35 < r.value1 then "High" else "Medium"))) :=
  ⟨rfl, by decide, by decide,
    missing_input_generates_and_persists (fun _ => none) (some "absent.csv")
      [10, 25, 30, 40, 45] [0, 0, 0, 0, 0] rfl (by decide) (by decide)⟩

/-- C8: `process_data` is deterministic on the file-exists path: a first
run leaves the filesystem unchanged (in particular the input file), and a
second run against it returns the same table, whatever values the
generator would have drawn in either run — so the persisted output
content is identical. -/
theorem process_data_deterministic (fs : FS) (p : Option String)
    (s1 s2 : List InputRow) (d : FileData)
    (h : fs (effective_input_path p) = some d) :
    (process_data fs p s1).2 = fs
      ∧ (process_data ((process_data fs p s1).2) p s2).1
          = (process_data fs p s1).1 := by
  have h2 : (process_data fs p s1).2 = fs := by
    cases d <;> simp [process_data, h]
  refine ⟨h2, ?_⟩
  rw [h2]
  cases d <;> simp [process_data, h]

theorem process_data_deterministic_witness :
    ((process_data
          (fun q => if q = "in.csv"
            then some (FileData.table [⟨1, "A", 25, 10⟩]) else none)
          (some "in.csv") []).2
        = (fun q => if q = "in.csv"
            then some (FileData.table [⟨1, "A", 25, 10⟩]) else none))
      ∧ (process_data
            ((process_data
              (fun q => if q = "in.csv"
                then some (FileData.table [⟨1, "A", 25, 10⟩]) else none)
              (some "in.csv") []).2)
            (some "in.csv") [⟨2, "B", 30, 5⟩]).1
          = (process_data
              (fun q => if q = "in.csv"
                then some (FileData.table [⟨1, "A", 25, 10⟩]) else none)
              (some "in.csv") []).1 :=
  process_data_deterministic _ _ _ _ (FileData.table [⟨1, "A", 25, 10⟩]) (by decide)

/-- C9: any read or parse failure at an existing path other than the
empty-content condition (malformed content, permission error, ...) makes
`process_data` return an empty table with the filesystem untouched; the
function is total, so on these documented failure conditions no exception
crosses the pipeline boundary and the empty table is the sole error
signal. -/
theorem read_error_returns_empty (fs : FS) (p : Option String)
    (sample : List InputRow)
    (h : fs (effective_input_path p) = some FileData.unreadable) :
    process_data fs p sample = ([], fs) := by
  simp [process_data, h]

theorem read_error_returns_empty_witness :
    process_data
        (fun q => if q = "bad.csv" then some FileData.unreadable else none)
        (some "bad.csv") []
      = ([], (fun q => if q = "bad.csv" then some FileData.unreadable else none)) :=
  read_error_returns_empty _ _ _ (by decide)

/-- C10: on a well-formed input with columns id, category, value1, value2,
the returned table has exactly the columns id, category, value1, value2,
value1_plus_10, value2_div_value1, value1_type in that order (pandas
appends each newly assigned column), and every retained row keeps its
original id, category, value1 and value2 values and its relative input
order. -/
theorem processed_schema_and_frame (rows : List InputRow) :
    process_data_columns inputColumns
        = ["id", "category", "value1", "value2", "value1_plus_10",
            "value2_div_value1", "value1_type"]
      ∧ List.map projectInput (transform_rows rows)
          = rows.filter (fun s => decide (20 < s.value1)) := by
  exact ⟨by decide, transform_rows_proj rows⟩

end Spec2Proof
